import Mathlib

/-!
Verification development for the `playwright-prometheus-remote-write-reporter`
repository. The definitions below are a shallow embedding of the newer (strict)
variant of the two components, translated from `src/helpers.ts` (Counter/Gauge
metric abstraction), `src/utils.ts` (Event envelope) and `src/index.ts`
(PrometheusReporter orchestrator).

Modelling conventions:
- JS objects used as label bags (`Record<string, string>`) are modelled as
  insertion-ordered association lists with unique keys; JS spread-merge
  `{...a, ...b}` is modelled by `objMerge` (repeated key-assignment), which
  keeps an existing key at its position with the new value and appends new
  keys, exactly like JS object spread.
- `Date.now()` is threaded explicitly as a `Nat` argument `t`.
- JS numbers are modelled as `Int` (no claim depends on float rounding).
- The network push `pushTimeseries` is an external collaborator; a hook's
  pushes are modelled as the list of series the hook hands to it.
- Node host introspection (`updateNodejsStats`, `node_*` gauges, `os`/`process`
  facts) is an external collaborator and is outside the modelled state; no
  claim concerns it.
-/

namespace PwRW

/-- A JS string-to-string object (label bag): insertion-ordered unique-key
association list. -/
abbrev Labels := List (String × String)

/-- Property read `m[k]` on a JS object modelled by `Labels` (first match;
the representation keeps keys unique). -/
def lookupLabel : Labels → String → Option String
  | [], _ => none
  | kv :: rest, q => if kv.1 = q then some kv.2 else lookupLabel rest q

/-- JS nullish-style choice on `Option String`: first operand if present. -/
def optOr : Option String → Option String → Option String
  | some v, _ => some v
  | none, b => b

/-- The value the last write to key `q` left (rightmost binding wins), used
to state last-write-wins facts about merges. -/
def lookupLabelLast (m : Labels) (q : String) : Option String :=
  lookupLabel m.reverse q

/-- JS property assignment `m[k] = v` on an object: an existing key keeps its
position and gets the new value, a new key is appended. -/
def objInsert (m : Labels) (k v : String) : Labels :=
  if m.any (fun kv => kv.1 == k) then
    m.map (fun kv => if kv.1 = k then (k, v) else kv)
  else m ++ [(k, v)]

/-- JS object spread `{...old, ...extra}`: assign every binding of `extra`
into `old` in order. -/
def objMerge (old extra : Labels) : Labels :=
  extra.foldl (fun acc kv => objInsert acc kv.1 kv.2) old

/-- One wire sample `{value, timestamp}` (`prometheus-remote-write`). -/
structure Sample where
  value : Int
  timestamp : Nat
deriving DecidableEq, Repr

/-- The wire `Timeseries` record: a label map (containing `__name__`) plus an
ordered list of samples. -/
structure Timeseries where
  labels : Labels
  samples : List Sample
deriving DecidableEq, Repr

/-- The state of a `Counter` (and of a `Gauge`, which only adds operations)
from `src/helpers.ts`: the constructor-captured `metadata` and `initialValue`
(both used by `reset()`), the current `counter` value, and the owned `series`. -/
structure Counter where
  metadata : Labels
  initialValue : Int
  counter : Int
  series : Timeseries
deriving DecidableEq, Repr

/-- Body of the `Counter` constructor after the `name` guard
(`src/helpers.ts`): `counter = initialValue`, and
`series = { labels: { __name__: name, ...restMetadata }, samples: [{value, timestamp: now}] }`
where `restMetadata` is `metadata` without its `name` key. -/
def Counter.make (metadata : Labels) (initialValue : Int) (t : Nat) : Counter :=
  let nm := (lookupLabel metadata "name").getD ""
  { metadata := metadata
    initialValue := initialValue
    counter := initialValue
    series :=
      { labels := objMerge [("__name__", nm)] (metadata.filter (fun kv => kv.1 != "name"))
        samples := [{ value := initialValue, timestamp := t }] } }

/-- The `Counter` constructor: `if (!metadata.name) throw` (an absent or empty
`name` is falsy), otherwise initialize the state. -/
def mkCounter (metadata : Labels) (initialValue : Int) (t : Nat) : Except String Counter :=
  if (lookupLabel metadata "name").getD "" = "" then
    Except.error "name property for metadata is required"
  else
    Except.ok (Counter.make metadata initialValue t)

/-- The constructor guard as a Boolean: `metadata.name` is present and
non-empty. -/
def hasValidName (m : Labels) : Bool :=
  (lookupLabel m "name").getD "" != ""

/-- `Metric.labels(labels)` from `src/helpers.ts`:
`this.series.labels = {...this.series.labels, ...labels}` (spread-merge,
mutating in place; no key, `__name__` included, is treated specially). -/
def Counter.labels (c : Counter) (extra : Labels) : Counter :=
  { c with series := { c.series with labels := objMerge c.series.labels extra } }

/-- `Counter.inc(value = 1)`: `counter += value`, then push
`{value: counter, timestamp: now}` onto the sample list. -/
def Counter.inc (c : Counter) (v : Int) (t : Nat) : Counter :=
  { c with
    counter := c.counter + v
    series := { c.series with
      samples := c.series.samples ++ [{ value := c.counter + v, timestamp := t }] } }

/-- `Gauge.dec(value = 1)` (Gauge-only capability): `counter -= value`, then
push a sample. -/
def Counter.dec (c : Counter) (v : Int) (t : Nat) : Counter :=
  { c with
    counter := c.counter - v
    series := { c.series with
      samples := c.series.samples ++ [{ value := c.counter - v, timestamp := t }] } }

/-- `Gauge.set(value = 1)` (Gauge-only capability): `counter = value`, then
push a sample. -/
def Counter.set (c : Counter) (v : Int) (t : Nat) : Counter :=
  { c with
    counter := v
    series := { c.series with
      samples := c.series.samples ++ [{ value := v, timestamp := t }] } }

/-- `Gauge.zero()`: sugar for `set(0)`. -/
def Counter.zero (c : Counter) (t : Nat) : Counter :=
  c.set 0 t

/-- A `Gauge` is a `Counter` whose extra operations are `dec`/`set`/`zero`
above; the stored state is identical. -/
abbrev Gauge := Counter

/-- `reset()`: `return new Counter(this.metadata, this.initialValue)` — runs
the constructor again on the captured metadata and initial value and returns
the brand-new instance. (A metric that was successfully constructed always
takes the `ok` branch; the `error` fallback is unreachable for such metrics
and merely makes the model total.) -/
def Counter.reset (c : Counter) (t : Nat) : Counter :=
  match mkCounter c.metadata c.initialValue t with
  | Except.ok c2 => c2
  | Except.error _ => c

/-- A call site `a.reset()` observed from outside: the pair
(state of `a` after the call, returned fresh instance). The method body is
`return new Counter(this.metadata, this.initialValue)` — it contains no write
to `this`, so the first component is `a` unchanged. -/
def resetCall (c : Counter) (t : Nat) : Counter × Counter :=
  (c, c.reset t)

/-- Equality of metric states up to sample timestamps: same label set, same
current value, same sample values. Used to state that repeated `reset()`
calls produce equivalent fresh states. -/
def sameShape (a b : Counter) : Prop :=
  a.metadata = b.metadata ∧ a.counter = b.counter ∧
  a.series.labels = b.series.labels ∧
  a.series.samples.map Sample.value = b.series.samples.map Sample.value

/-- The sequences of mutating calls a Metric supports: `inc` (Counter, Gauge),
`dec` and `set` (Gauge). -/
inductive MOp where
  | inc (v : Int)
  | dec (v : Int)
  | set (v : Int)
deriving DecidableEq, Repr

/-- Apply one mutating call (paired with its `Date.now()` timestamp). -/
def applyMOp (c : Counter) : MOp × Nat → Counter
  | (MOp.inc v, t) => c.inc v t
  | (MOp.dec v, t) => c.dec v t
  | (MOp.set v, t) => c.set v t

/-- Apply a finite sequence of mutating calls in call order. -/
def runMOps (c : Counter) (ops : List (MOp × Nat)) : Counter :=
  ops.foldl applyMOp c

/-- The claimed arithmetic meaning of one call: `inc` adds, `dec` subtracts,
`set` replaces. -/
def evalMOp (x : Int) : MOp → Int
  | MOp.inc v => x + v
  | MOp.dec v => x - v
  | MOp.set v => v

/-- A parsed JSON/JS value, as produced by `JSON.parse` on a stdout chunk. -/
inductive JSValue where
  | null
  | bool (b : Bool)
  | num (n : Int)
  | str (s : String)
  | arr (elems : List JSValue)
  | obj (fields : List (String × JSValue))

/-- Own-property lookup on a JS object's field list. -/
def lookupField : List (String × JSValue) → String → Option JSValue
  | [], _ => none
  | (k0, v0) :: rest, q => if k0 = q then some v0 else lookupField rest q

/-- The JS `typeof` operator on parsed values; note `typeof null` and
`typeof []` are both `"object"`. -/
def jsTypeof : JSValue → String
  | JSValue.null => "object"
  | JSValue.bool _ => "boolean"
  | JSValue.num _ => "number"
  | JSValue.str _ => "string"
  | JSValue.arr _ => "object"
  | JSValue.obj _ => "object"

/-- Property read `v[k]` for the (non-numeric) keys the code inspects:
defined on objects, `none` (JS `undefined`) elsewhere. -/
def getProp : JSValue → String → Option JSValue
  | JSValue.obj fields, k => lookupField fields k
  | _, _ => none

/-- `v === null`. -/
def isJSNull : JSValue → Bool
  | JSValue.null => true
  | _ => false

/-- `Event.is(input)` from `src/utils.ts`, conjunct by conjunct:
`typeof input === "object" && input !== null && "name" in input &&
"payload" in input && input.name === Event.name &&
typeof input.payload === "object"` with `Event.name = "prometheus-remote-writer"`. -/
def eventIs (input : JSValue) : Bool :=
  (jsTypeof input == "object") && (!isJSNull input)
  && (getProp input "name").isSome && (getProp input "payload").isSome
  && (match getProp input "name" with
      | some (JSValue.str s) => s == "prometheus-remote-writer"
      | _ => false)
  && (match getProp input "payload" with
      | some p => jsTypeof p == "object"
      | none => false)

/-- The `Event.is` acceptance condition exactly as the claim words it
(spec 4.2): a non-null object with keys `name` and `payload`, `name` strictly
the sentinel, and `payload` itself a non-null object. Written from the spec,
for comparison with `eventIs` (which is written from the code). -/
def eventIsSpec (input : JSValue) : Bool :=
  match input with
  | JSValue.obj fields =>
    (match lookupField fields "name" with
     | some (JSValue.str s) => s == "prometheus-remote-writer"
     | _ => false)
    && (match lookupField fields "payload" with
        | some (JSValue.obj _) => true
        | _ => false)
  | _ => false

/-- `PrometheusReporter.mapTimeseries` (flush-time relabeling):
`const { __name__, ...restLabels } = series.labels;` then a fresh record
`{ labels: { __name__: `${prefix}${__name__}`, ...restLabels }, samples: series.samples }`.
The input series is not mutated. (If `__name__` were absent the template
literal would render `undefined`.) -/
def mapTimeseries (p : String) (series : Timeseries) : Timeseries :=
  let nm := (lookupLabel series.labels "__name__").getD "undefined"
  let rest := series.labels.filter (fun kv => kv.1 != "__name__")
  { labels := ("__name__", p ++ nm) :: rest
    samples := series.samples }

/-- One flush of a metric through `mapTimeseries` + `send`: the metric
itself is only read (`_getSeries()`), never written, so the state component
is returned unchanged. -/
def flushMetric (p : String) (c : Counter) : Counter × Timeseries :=
  (c, mapTimeseries p c.series)

/-- `n` successive flushes of the same metric slot, collecting the pushed
series in order. -/
def iterFlush (p : String) (c : Counter) : Nat → Counter × List Timeseries
  | 0 => (c, [])
  | n + 1 =>
    let prev := iterFlush p c n
    let step := flushMetric p prev.1
    (step.1, prev.2 ++ [step.2])

/-- The Reporter state (the slots of `PrometheusReporter` that the modelled
hooks read or write; the `node_*` host-introspection gauges, the stderr/error
counters and the per-project counters belong to hooks outside the claims and
are omitted). `url` and `prefixStr` model `options.url` and `prefix` (the
field is called `prefix` in the source). All metrics start with value 0. -/
structure Reporter where
  url : String
  prefixStr : String
  test_step_total_count : Counter
  test_step_total_duration : Gauge
  test_annotation_count : Counter
  test_step_duration : Gauge
  test_step_error_count : Counter
  test_step_total_error : Counter
  test_step : Counter
  pw_stdout : Counter
  test_attachment_count : Counter
  test_attachment_size : Gauge
  tests_total_attachment_size : Gauge
  tests_total_attachment : Counter
  test_duration : Gauge
  test : Counter
  test_retry_count : Counter
  total_duration : Gauge
  test_total_count : Counter
  skipped_tests_count : Counter
  timed_out_tests_count : Counter
  passed_count : Counter
  failed_count : Counter
deriving DecidableEq, Repr

/-- The reporter's metric slots as initialized by the class field
initializers of `PrometheusReporter` (metadata literals copied from
`src/index.ts`). -/
def initialReporter (url p : String) (t : Nat) : Reporter :=
  { url := url
    prefixStr := p
    test_step_total_count := Counter.make
      [("name", "test_step_total_count"),
       ("description", "count of all test_step that was executed in all time")] 0 t
    test_step_total_duration := Counter.make
      [("name", "test_step_total_duration"), ("unit", "ms"),
       ("description", "duration in milliseconds of all test_step that was executed in all time")] 0 t
    test_annotation_count := Counter.make
      [("name", "test_annotation_count"),
       ("description", "Count of annotations in tests")] 0 t
    test_step_duration := Counter.make
      [("name", "test_step_duration"), ("unit", "ms"),
       ("description", "Total duration of all test steps")] 0 t
    test_step_error_count := Counter.make
      [("name", "test_step_error_count"),
       ("description", "Count of errors in test steps")] 0 t
    test_step_total_error := Counter.make
      [("name", "test_step_total_error"),
       ("description", "Total errors in test steps")] 0 t
    test_step := Counter.make
      [("name", "test_step"), ("description", "Individual test steps")] 0 t
    pw_stdout := Counter.make
      [("name", "stdout"),
       ("description", "Standard output stream from Playwright")] 0 t
    test_attachment_count := Counter.make
      [("name", "test_attachment_count"),
       ("description", "Count of attachments in tests")] 0 t
    test_attachment_size := Counter.make
      [("name", "test_attachment_size"), ("unit", "bytes"),
       ("description", "information about attachment size for each test")] 0 t
    tests_total_attachment_size := Counter.make
      [("name", "tests_attachment_total_size"), ("unit", "bytes")] 0 t
    tests_total_attachment := Counter.make
      [("name", "tests_attachment_total_count")] 0 t
    test_duration := Counter.make [("name", "test_duration"), ("unit", "ms")] 0 t
    test := Counter.make [("name", "test")] 0 t
    test_retry_count := Counter.make [("name", "test_retry_count")] 0 t
    total_duration := Counter.make [("name", "tests_total_duration"), ("unit", "ms")] 0 t
    test_total_count := Counter.make [("name", "tests_total_count")] 0 t
    skipped_tests_count := Counter.make [("name", "tests_skipped_count")] 0 t
    timed_out_tests_count := Counter.make [("name", "tests_timed_out_count")] 0 t
    passed_count := Counter.make [("name", "tests_passed_count")] 0 t
    failed_count := Counter.make [("name", "tests_failed_count")] 0 t }

/-- Splits a character list at the first `"://"` separator, returning the
scheme characters before it; `none` when no separator occurs. -/
def schemeSplit : List Char → Option (List Char)
  | [] => none
  | ':' :: '/' :: '/' :: _ => some []
  | c :: rest =>
    match schemeSplit rest with
    | some pre => some (c :: pre)
    | none => none

/-- Models the external WHATWG `URL` constructor (`node:url`) on a string
argument: parsing succeeds iff the string has a non-empty scheme followed by
`"://"`; `toString()` normalization is modelled as the identity. A failing
parse throws `TypeError` with message `"Invalid URL"`. -/
def urlParse (s : String) : Except String String :=
  match schemeSplit s.data with
  | some [] => Except.error "Invalid URL"
  | some _ => Except.ok s
  | none => Except.error "Invalid URL"

/-- The construction options of `PrometheusReporter` (`PrometheusOptions`):
`serverUrl` absent is modelled as `none` (JS `undefined`). `headers`,
`auth`, static `labels` and `env` are stored for the push client and read by
no claim, so only `serverUrl` and `prefix` are modelled. -/
structure PrometheusOptions where
  serverUrl : Option String
  prefixOpt : Option String
deriving DecidableEq, Repr

/-- The `PrometheusReporter` constructor:
`this.options.url = new URL(options.serverUrl).toString() ?? (() => { throw new TypeError(...) })();`
With `serverUrl` absent, `new URL(undefined)` itself throws
`TypeError("Invalid URL")`; the `??` fallback that would throw the package's
long descriptive message is unreachable, because `.toString()` on a
successfully constructed `URL` never returns a nullish value. Then
`this.prefix = options.prefix ?? "pw_"` and the metric slots are the class
field initializers. -/
def mkReporter (opts : PrometheusOptions) (t : Nat) : Except String Reporter :=
  match opts.serverUrl with
  | none => Except.error "Invalid URL"
  | some u =>
    match urlParse u with
    | Except.error e => Except.error e
    | Except.ok s => Except.ok (initialReporter s (opts.prefixOpt.getD "pw_") t)

/-- A test attachment as `onTestEnd` reads it: `name`, `contentType`,
optional `path`, optional `body` (a Buffer, modelled as its UTF-8 text;
`body?.length ?? 0` is its byte size). -/
structure Attachment where
  name : String
  contentType : String
  path : Option String
  body : Option String
deriving DecidableEq, Repr

/-- A test annotation: `{type, description?}`. -/
structure Annot where
  kind : String
  description : Option String
deriving DecidableEq, Repr

/-- The fields of the Playwright `TestCase` that the modelled hooks read.
`location` is the already-rendered `relativePath:line:column` string
(`this.location(test)` uses `node:path`, an external collaborator). -/
structure TestInput where
  title : String
  id : String
  parentTitle : String
  location : String
  expectedStatus : String
  annotations : List Annot
deriving DecidableEq, Repr

/-- The fields of the Playwright `TestResult` that the modelled hooks read. -/
structure ResultInput where
  status : String
  duration : Int
  parallelIndex : Nat
  workerIndex : Nat
  retry : Nat
  attachments : List Attachment
  stepsCount : Nat
deriving DecidableEq, Repr

/-- A `TestStep.error` as `onStepEnd` reads it; `path` is the rendered
`this.location(step.error)` string. -/
structure StepError where
  message : Option String
  snippet : Option String
  stack : Option String
  value : Option String
  path : String
deriving DecidableEq, Repr

/-- The fields of the Playwright `TestStep` that `onStepEnd` reads; `path` is
the rendered `this.location(step)` string and `startTime` the rendered
`String(step.startTime)`. -/
structure StepInput where
  category : String
  path : String
  duration : Int
  startTime : String
  titlePath : List String
  stepsCount : Nat
  error : Option StepError
deriving DecidableEq, Repr

/-- `/\r?\n|\r/g` replaced by a single space (error-message normalization in
`onStepEnd`). -/
def normalizeNewlines (s : String) : String :=
  ((s.replace "\r\n" " ").replace "\n" " ").replace "\r" " "

/-- `private updateResults(result)`: bump the pass/fail/skip/timeout totals
matching `result.status`, then the total test count and cumulative duration. -/
def updateResults (r : Reporter) (result : ResultInput) (t : Nat) : Reporter :=
  let r1 := if result.status = "passed"
    then { r with passed_count := r.passed_count.inc 1 t } else r
  let r2 := if result.status = "failed"
    then { r1 with failed_count := r1.failed_count.inc 1 t } else r1
  let r3 := if result.status = "skipped"
    then { r2 with skipped_tests_count := r2.skipped_tests_count.inc 1 t } else r2
  let r4 := if result.status = "timedOut"
    then { r3 with timed_out_tests_count := r3.timed_out_tests_count.inc 1 t } else r3
  let r5 := { r4 with test_total_count := r4.test_total_count.inc 1 t }
  { r5 with total_duration := r5.total_duration.inc result.duration t }

/-- The `result.attachments.forEach` body of `onTestEnd`: per attachment,
`size = attach.body?.length ?? 0`, bump the run-total size, label and bump
`test_attachment_count`, label and bump `test_attachment_size` by `size`,
bump the run-total attachment count. -/
def attachmentStep (testId testTitle : String) (t : Nat) (r : Reporter)
    (attach : Attachment) : Reporter :=
  let size : Int := (attach.body.map (fun b => (b.utf8ByteSize : Int))).getD 0
  let r1 := { r with
    tests_total_attachment_size := r.tests_total_attachment_size.inc size t }
  let r2 := { r1 with
    test_attachment_count :=
      (r1.test_attachment_count.labels
        [("size", toString size), ("path", attach.path.getD ""),
         ("contentType", attach.contentType), ("attachmentName", attach.name),
         ("body", attach.body.getD ""), ("testId", testId),
         ("testTitle", testTitle), ("unit", "bytes")]).inc 1 t }
  let r3 := { r2 with
    test_attachment_size :=
      (r2.test_attachment_size.labels
        [("testId", testId), ("testTitle", testTitle), ("unit", "bytes")]).inc size t }
  { r3 with tests_total_attachment := r3.tests_total_attachment.inc 1 t }

/-- The `test.annotations.forEach` body of `onTestEnd`: label and bump
`test_annotation_count` per annotation. -/
def annotStep (testId testTitle : String) (t : Nat) (r : Reporter)
    (a : Annot) : Reporter :=
  { r with
    test_annotation_count :=
      (r.test_annotation_count.labels
        [("type", a.kind), ("description", a.description.getD ""),
         ("testId", testId), ("testTitle", testTitle)]).inc 1 t }

/-- The per-test label set `onTestEnd` builds (`const labels = {...}`). -/
def testEndLabels (test : TestInput) (result : ResultInput) : Labels :=
  [("title", test.title), ("id", test.id), ("suite", test.parentTitle),
   ("location", test.location), ("expectedStatus", test.expectedStatus),
   ("actualStatus", result.status), ("duration", toString result.duration),
   ("parallelIndex", toString result.parallelIndex),
   ("attachmentsCount", toString result.attachments.length),
   ("stepsCount", toString result.stepsCount),
   ("workerIndex", toString result.workerIndex),
   ("retryCount", toString result.retry)]

/-- The tail of `onTestEnd` after the two `forEach` loops: the
`test`/`test_duration`/`test_retry_count` updates, one batched push
(returned as the second component, in the exact order of the
`this.send([...])` call — note `test_attachment_size` is mapped twice), and
the trailing resets. The source lines `this.test_annotation_count.reset();`
and `this.test_attachment_size.reset();` discard the fresh instance `reset`
returns, so those two slots are left unchanged; the other four slots are
reassigned (`this.test_step = this.test_step.reset();` etc.). -/
def onTestEndTail (r3 : Reporter) (test : TestInput) (result : ResultInput)
    (t : Nat) : Reporter × List Timeseries :=
  let lbs := testEndLabels test result
  let testSeries := (r3.test.labels lbs).inc 1 t
  let testDuration := (r3.test_duration.labels lbs).set result.duration t
  let testRetries := (r3.test_retry_count.labels lbs).inc (result.retry : Int) t
  let r4 := { r3 with
    test := testSeries, test_duration := testDuration,
    test_retry_count := testRetries }
  let batch :=
    [r4.test_step.series, r4.test_step_total_duration.series,
     r4.test_attachment_size.series, r4.test_annotation_count.series,
     testSeries.series, testDuration.series, testRetries.series,
     r4.test_step_total_error.series, r4.test_attachment_size.series,
     r4.test_step_total_count.series].map (mapTimeseries r4.prefixStr)
  let r5 := { r4 with
    test_step := r4.test_step.reset t,
    test := r4.test.reset t,
    test_duration := r4.test_duration.reset t,
    test_retry_count := r4.test_retry_count.reset t }
  (r5, batch)

/-- `async onTestEnd(test, result)` from `src/index.ts`: totals
(`updateResults`), the attachment loop, the annotation loop, then the tail
above. -/
def onTestEnd (r : Reporter) (test : TestInput) (result : ResultInput)
    (t : Nat) : Reporter × List Timeseries :=
  let r1 := updateResults r result t
  let r2 := result.attachments.foldl (attachmentStep test.id test.title t) r1
  let r3 := test.annotations.foldl (annotStep test.id test.title t) r2
  onTestEndTail r3 test result t

/-- `async onStepEnd(test, result, step)` from `src/index.ts`: build the step
label set (plus error labels and the two error-counter bumps when
`step.error` is present), bump the step totals and `test_step_duration`,
attach the labels to `test_step`, bump `test_step_total_duration` again with
the test-identity labels, push the three step series (returned as the second
component), and finally `this.test_step.reset();` — which discards the fresh
instance, leaving the `test_step` slot unchanged. (When `step.error.message`
is `undefined`, `JSON.stringify(undefined)` is `undefined`; the label value
is modelled as the string `"undefined"`.) -/
def onStepEnd (r : Reporter) (test : TestInput) (result : ResultInput)
    (step : StepInput) (t : Nat) : Reporter × List Timeseries :=
  let lbs0 : Labels :=
    [("category", step.category), ("path", step.path), ("testId", test.id),
     ("duration", toString step.duration), ("startTime", step.startTime),
     ("titlePath", String.intercalate "->" step.titlePath),
     ("stepsCount", toString step.stepsCount), ("testTitle", test.title),
     ("stepInnerCount", toString step.stepsCount),
     ("parallelIndex", toString result.parallelIndex),
     ("retryCount", toString result.retry), ("status", result.status)]
  let errStep :=
    match step.error with
    | some e =>
      let lbs := lbs0 ++
        [("errorMessage", (e.message.map normalizeNewlines).getD "undefined"),
         ("errorSnippet", e.snippet.getD "<unknown snippet>"),
         ("errorStack", e.stack.getD "<empty stack>"),
         ("errorValue", e.value.getD "<unknown value>"),
         ("errorPath", e.path)]
      let r1 := { r with
        test_step_total_error := (r.test_step_total_error.labels lbs).inc 1 t }
      let r2 := { r1 with
        test_step_error_count := (r1.test_step_error_count.labels lbs).inc 1 t }
      (lbs, r2)
    | none => (lbs0, r)
  let lbs := errStep.1
  let r2 := errStep.2
  let r3 := { r2 with
    test_step_total_duration := r2.test_step_total_duration.inc step.duration t }
  let r4 := { r3 with
    test_step_total_count := r3.test_step_total_count.inc 1 t }
  let r5 := { r4 with
    test_step_duration := (r4.test_step_duration.labels lbs).inc step.duration t }
  let r6 := { r5 with test_step := r5.test_step.labels lbs }
  let r7 := { r6 with
    test_step_total_duration :=
      (r6.test_step_total_duration.labels
        [("testId", test.id), ("testTitle", test.title)]).inc step.duration t }
  let batch :=
    [r7.test_step_duration.series, r7.test_step_error_count.series,
     r7.test_step.series].map (mapTimeseries r7.prefixStr)
  (r7, batch)

/-- `event.payload` of a value that passed `Event.is` (present by the
predicate; `.null` is an unreachable placeholder). -/
def getPayload (v : JSValue) : JSValue :=
  (getProp v "payload").getD JSValue.null

/-- Whether `mapTimeseries(event.payload)` runs without throwing: the rest
destructuring `const { __name__, ...restLabels } = series.labels` throws a
`TypeError` exactly when `payload.labels` is `undefined` (payload not an
object, or no `labels` key) or `null`; any other value (object, array, or a
boxable primitive) destructures fine. -/
def payloadLabelsOk (v : JSValue) : Bool :=
  match getProp (getPayload v) "labels" with
  | none => false
  | some JSValue.null => false
  | some _ => true

/-- `async onStdOut(chunk, test?, result?)` from `src/index.ts`. `parsed`
models the outcome of `JSON.parse(String(chunk))`: `none` when it throws.
Control flow of the source:
`try { parse; if (Event.is(event)) { send(mapTimeseries(event.payload)); pw_stdout.labels({internal:"true", ...}).inc() } } catch { pw_stdout.labels({internal:"false", ...}).inc() }`
so a chunk that parses but is not an Event reaches neither branch, and an
Event whose payload makes `mapTimeseries` throw lands in the catch. The
second component lists the payloads pushed (the wire form is
`mapTimeseries(prefix, payload)`). -/
def onStdOut (r : Reporter) (chunk : String) (parsed : Option JSValue)
    (testId testTitle : String) (t : Nat) : Reporter × List JSValue :=
  let lbs : Labels :=
    [("text", chunk), ("size", toString chunk.length), ("unit", "bytes"),
     ("encoding", "utf8"), ("testId", testId), ("testTitle", testTitle)]
  match parsed with
  | none =>
    ({ r with pw_stdout := (r.pw_stdout.labels (("internal", "false") :: lbs)).inc 1 t }, [])
  | some v =>
    if eventIs v then
      if payloadLabelsOk v then
        ({ r with pw_stdout := (r.pw_stdout.labels (("internal", "true") :: lbs)).inc 1 t },
         [getPayload v])
      else
        ({ r with pw_stdout := (r.pw_stdout.labels (("internal", "false") :: lbs)).inc 1 t }, [])
    else (r, [])

/-- The `__name__` value a metric slot currently carries. -/
def slotName (c : Counter) : Option String :=
  lookupLabel c.series.labels "__name__"

/-- The original metric names of the ten entries of `onTestEnd`'s batched
push, in source order (`test_attachment_size` appears twice). -/
def onTestEndBatchNames : List String :=
  ["test_step", "test_step_total_duration", "test_attachment_size",
   "test_annotation_count", "test", "test_duration", "test_retry_count",
   "test_step_total_error", "test_attachment_size", "test_step_total_count"]

/-- Concrete `TestCase` input used to evaluate the hooks: one test with one
annotation. -/
def testW : TestInput :=
  { title := "t", id := "t1", parentTitle := "s", location := "f.ts:1:1",
    expectedStatus := "passed",
    annotations := [{ kind := "slow", description := some "d" }] }

/-- Concrete `TestResult` input: a passed test with one 10-byte attachment. -/
def resultW : ResultInput :=
  { status := "passed", duration := 5, parallelIndex := 0, workerIndex := 0,
    retry := 0,
    attachments := [{ name := "a", contentType := "text/plain", path := none,
                      body := some "0123456789" }],
    stepsCount := 0 }

/-- Concrete `TestStep` input: an error-free step. -/
def stepW : StepInput :=
  { category := "pw:api", path := "f.ts:2:3", duration := 7, startTime := "T0",
    titlePath := ["a", "b"], stepsCount := 0, error := none }

/-- Concrete sequence of mutating metric calls. -/
def wOps : List (MOp × Nat) :=
  [(MOp.inc 3, 1), (MOp.set 7, 2), (MOp.dec 2, 3)]

/-! ## Lemmas about the label-bag algebra -/

theorem lookupLabel_append (a b : Labels) (q : String) :
    lookupLabel (a ++ b) q = optOr (lookupLabel a q) (lookupLabel b q) := by
  induction a with
  | nil => simp [lookupLabel, optOr]
  | cons kv rest ih =>
    obtain ⟨k0, v0⟩ := kv
    by_cases h : k0 = q
    · simp [lookupLabel, h, optOr]
    · simp [lookupLabel, h, ih]

theorem optOr_none (o : Option String) : optOr o none = o := by
  cases o <;> rfl

theorem lookupLabel_map_replace_ne (m : Labels) (k v q : String) (h : q ≠ k) :
    lookupLabel (m.map (fun kv => if kv.1 = k then (k, v) else kv)) q =
      lookupLabel m q := by
  induction m with
  | nil => rfl
  | cons kv rest ih =>
    obtain ⟨k0, v0⟩ := kv
    by_cases h0 : k0 = k
    · subst h0
      simp [lookupLabel, Ne.symm h, ih]
    · by_cases hq : k0 = q
      · subst hq
        simp [lookupLabel, h0]
      · simp [lookupLabel, h0, hq, ih]

theorem lookupLabel_map_replace_eq (m : Labels) (k v : String)
    (hmem : m.any (fun kv => kv.1 == k) = true) :
    lookupLabel (m.map (fun kv => if kv.1 = k then (k, v) else kv)) k = some v := by
  induction m with
  | nil => simp at hmem
  | cons kv0 rest ih =>
    obtain ⟨k0, v0⟩ := kv0
    by_cases h0 : k0 = k
    · subst h0
      simp [lookupLabel]
    · have hrest : rest.any (fun kv => kv.1 == k) = true := by
        simpa [List.any_cons, h0] using hmem
      simp [lookupLabel, h0, ih hrest]

theorem lookupLabel_eq_none_of_not_any (m : Labels) (k : String)
    (h : m.any (fun kv => kv.1 == k) = false) : lookupLabel m k = none := by
  induction m with
  | nil => rfl
  | cons kv rest ih =>
    obtain ⟨k0, v0⟩ := kv
    simp only [List.any_cons, Bool.or_eq_false_iff] at h
    obtain ⟨h1, h2⟩ := h
    have hk : k0 ≠ k := by
      intro hh
      subst hh
      simp at h1
    simp [lookupLabel, hk, ih h2]

theorem lookupLabel_objInsert (m : Labels) (k v q : String) :
    lookupLabel (objInsert m k v) q = if q = k then some v else lookupLabel m q := by
  unfold objInsert
  by_cases hmem : m.any (fun kv => kv.1 == k) = true
  · rw [if_pos hmem]
    by_cases hq : q = k
    · subst hq
      rw [if_pos rfl]
      exact lookupLabel_map_replace_eq m q v hmem
    · rw [if_neg hq, lookupLabel_map_replace_ne m k v q hq]
  · have hmem' : m.any (fun kv => kv.1 == k) = false :=
      Bool.eq_false_iff.mpr hmem
    rw [if_neg hmem, lookupLabel_append]
    by_cases hq : q = k
    · subst hq
      rw [lookupLabel_eq_none_of_not_any m q hmem']
      simp [lookupLabel, optOr]
    · have hk : ¬ k = q := fun hh => hq hh.symm
      simp [lookupLabel, hk, hq, optOr_none]

theorem objMerge_cons (old : Labels) (k v : String) (E : Labels) :
    objMerge old ((k, v) :: E) = objMerge (objInsert old k v) E := rfl

theorem lookupLabelLast_cons (k v : String) (E : Labels) (q : String) :
    lookupLabelLast ((k, v) :: E) q =
      optOr (lookupLabelLast E q) (if k = q then some v else none) := by
  simp [lookupLabelLast, List.reverse_cons, lookupLabel_append, lookupLabel]

theorem lookupLabel_objMerge (old E : Labels) (q : String) :
    lookupLabel (objMerge old E) q =
      optOr (lookupLabelLast E q) (lookupLabel old q) := by
  induction E generalizing old with
  | nil => simp [objMerge, lookupLabelLast, lookupLabel, optOr]
  | cons kv E' ih =>
    obtain ⟨k0, v0⟩ := kv
    rw [objMerge_cons, ih, lookupLabel_objInsert, lookupLabelLast_cons]
    cases hlast : lookupLabelLast E' q with
    | some w => simp [optOr]
    | none =>
      by_cases hq : q = k0
      · subst hq
        simp [optOr]
      · have hk : ¬ k0 = q := fun hh => hq hh.symm
        simp [optOr, hq, hk]

theorem lookupLabel_eq_none_of_keys (m : Labels) (q : String)
    (h : ∀ kv ∈ m, kv.1 ≠ q) : lookupLabel m q = none := by
  induction m with
  | nil => rfl
  | cons kv rest ih =>
    obtain ⟨k0, v0⟩ := kv
    have hk : k0 ≠ q := h (k0, v0) (List.mem_cons_self _ _)
    simp only [lookupLabel, hk, if_false, if_neg hk]
    exact ih (fun kv hkv => h kv (List.mem_cons_of_mem _ hkv))

theorem lookupLabelLast_eq_none_of_keys (E : Labels) (q : String)
    (h : ∀ kv ∈ E, kv.1 ≠ q) : lookupLabelLast E q = none :=
  lookupLabel_eq_none_of_keys _ _ (fun kv hkv => h kv (List.mem_reverse.mp hkv))

theorem allKeysNe (E : Labels) (q : String)
    (h : E.all (fun kv => kv.1 != q) = true) : ∀ kv ∈ E, kv.1 ≠ q := by
  intro kv hkv
  have h2 := List.all_eq_true.mp h kv hkv
  simpa using h2

/-! ## Lemmas about the Metric operations -/

theorem labels_lookup (c : Counter) (E : Labels) (q : String) :
    lookupLabel ((c.labels E).series.labels) q =
      optOr (lookupLabelLast E q) (lookupLabel c.series.labels q) := by
  simp [Counter.labels, lookupLabel_objMerge]

theorem labels_lookup_of_no_key (c : Counter) (E : Labels) (q : String)
    (h : ∀ kv ∈ E, kv.1 ≠ q) :
    lookupLabel ((c.labels E).series.labels) q = lookupLabel c.series.labels q := by
  rw [labels_lookup, lookupLabelLast_eq_none_of_keys E q h]
  rfl

theorem inc_series_labels (c : Counter) (v : Int) (t : Nat) :
    (c.inc v t).series.labels = c.series.labels := rfl

theorem set_series_labels (c : Counter) (v : Int) (t : Nat) :
    (c.set v t).series.labels = c.series.labels := rfl

theorem inc_samples_length (c : Counter) (v : Int) (t : Nat) :
    (c.inc v t).series.samples.length = c.series.samples.length + 1 := by
  simp [Counter.inc]

theorem labels_series_samples (c : Counter) (E : Labels) :
    (c.labels E).series.samples = c.series.samples := rfl

theorem slotName_labels_inc (c : Counter) (E : Labels) (v : Int) (t : Nat)
    (h : ∀ kv ∈ E, kv.1 ≠ "__name__") :
    slotName ((c.labels E).inc v t) = slotName c := by
  unfold slotName
  rw [inc_series_labels, labels_lookup_of_no_key c E _ h]

theorem slotName_labels_set (c : Counter) (E : Labels) (v : Int) (t : Nat)
    (h : ∀ kv ∈ E, kv.1 ≠ "__name__") :
    slotName ((c.labels E).set v t) = slotName c := by
  unfold slotName
  rw [set_series_labels, labels_lookup_of_no_key c E _ h]

/-! ## Lemmas about flush-time serialization -/

theorem mapTimeseries_name (p : String) (s : Timeseries) :
    lookupLabel (mapTimeseries p s).labels "__name__" =
      some (p ++ (lookupLabel s.labels "__name__").getD "undefined") := by
  simp [mapTimeseries, lookupLabel]

theorem lookupLabel_cons (kv : String × String) (rest : Labels) (q : String) :
    lookupLabel (kv :: rest) q = if kv.1 = q then some kv.2 else lookupLabel rest q := rfl

theorem lookupLabel_filter_ne (m : Labels) (q : String) (h : q ≠ "__name__") :
    lookupLabel (m.filter (fun kv => kv.1 != "__name__")) q = lookupLabel m q := by
  induction m with
  | nil => rfl
  | cons kv rest ih =>
    rw [List.filter_cons]
    by_cases h0 : kv.1 = "__name__"
    · have hcond : (kv.1 != "__name__") = false := by simp [h0]
      have hk : ¬ kv.1 = q := by
        rw [h0]
        exact fun hh => h hh.symm
      rw [hcond, if_neg (by simp : ¬ (false = true))]
      rw [lookupLabel_cons, if_neg hk]
      exact ih
    · have hcond : (kv.1 != "__name__") = true := by simp [h0]
      rw [hcond, if_pos rfl, lookupLabel_cons, lookupLabel_cons]
      by_cases hq : kv.1 = q
      · rw [if_pos hq, if_pos hq]
      · rw [if_neg hq, if_neg hq]
        exact ih

theorem mapTimeseries_other (p : String) (s : Timeseries) (q : String)
    (h : q ≠ "__name__") :
    lookupLabel (mapTimeseries p s).labels q = lookupLabel s.labels q := by
  have hk : ¬ ("__name__" = q) := fun hh => h hh.symm
  simp [mapTimeseries, lookupLabel, hk, lookupLabel_filter_ne _ _ h]

theorem iterFlush_spec (p : String) (c : Counter) (n : Nat) :
    (iterFlush p c n).1 = c ∧
    (iterFlush p c n).2 = List.replicate n (mapTimeseries p c.series) := by
  induction n with
  | zero => exact ⟨rfl, rfl⟩
  | succ k ih =>
    obtain ⟨h1, h2⟩ := ih
    refine ⟨by simp [iterFlush, flushMetric, h1], ?_⟩
    simp only [iterFlush, flushMetric, h1, h2]
    exact (List.replicate_succ' _ _).symm

/-! ## Lemmas about sequences of mutating calls -/

theorem applyMOp_samples_length (c : Counter) (o : MOp) (t : Nat) :
    (applyMOp c (o, t)).series.samples.length = c.series.samples.length + 1 := by
  cases o <;> simp [applyMOp, Counter.inc, Counter.dec, Counter.set]

theorem applyMOp_counter (c : Counter) (o : MOp) (t : Nat) :
    (applyMOp c (o, t)).counter = evalMOp c.counter o := by
  cases o <;> rfl

theorem runMOps_cons (c : Counter) (x : MOp × Nat) (rest : List (MOp × Nat)) :
    runMOps c (x :: rest) = runMOps (applyMOp c x) rest := by
  simp [runMOps]

theorem runMOps_spec (ops : List (MOp × Nat)) : ∀ c : Counter,
    (runMOps c ops).series.samples.length = c.series.samples.length + ops.length ∧
    (runMOps c ops).counter = ops.foldl (fun x op => evalMOp x op.1) c.counter := by
  induction ops with
  | nil => intro c; simp [runMOps]
  | cons op rest ih =>
    intro c
    obtain ⟨o, t⟩ := op
    rw [runMOps_cons]
    obtain ⟨h1, h2⟩ := ih (applyMOp c (o, t))
    constructor
    · rw [h1, applyMOp_samples_length]
      simp [List.length_cons]
      omega
    · rw [h2, applyMOp_counter]
      rfl

/-! ## Evaluation lemmas for `onStdOut` -/

theorem onStdOut_parse_fail (r : Reporter) (chunk testId testTitle : String)
    (t : Nat) :
    onStdOut r chunk none testId testTitle t =
      ({ r with pw_stdout := (r.pw_stdout.labels
          [("internal", "false"), ("text", chunk),
           ("size", toString chunk.length), ("unit", "bytes"),
           ("encoding", "utf8"), ("testId", testId),
           ("testTitle", testTitle)]).inc 1 t }, []) := rfl

theorem onStdOut_non_event (r : Reporter) (chunk testId testTitle : String)
    (t : Nat) (v : JSValue) (hev : eventIs v = false) :
    onStdOut r chunk (some v) testId testTitle t = (r, []) := by
  simp [onStdOut, hev]

theorem onStdOut_event (r : Reporter) (chunk testId testTitle : String)
    (t : Nat) (v : JSValue) (hev : eventIs v = true)
    (hok : payloadLabelsOk v = true) :
    onStdOut r chunk (some v) testId testTitle t =
      ({ r with pw_stdout := (r.pw_stdout.labels
          [("internal", "true"), ("text", chunk),
           ("size", toString chunk.length), ("unit", "bytes"),
           ("encoding", "utf8"), ("testId", testId),
           ("testTitle", testTitle)]).inc 1 t }, [getPayload v]) := by
  simp [onStdOut, hev, hok]

theorem onStdOut_event_throw (r : Reporter) (chunk testId testTitle : String)
    (t : Nat) (v : JSValue) (hev : eventIs v = true)
    (hok : payloadLabelsOk v = false) :
    onStdOut r chunk (some v) testId testTitle t =
      ({ r with pw_stdout := (r.pw_stdout.labels
          [("internal", "false"), ("text", chunk),
           ("size", toString chunk.length), ("unit", "bytes"),
           ("encoding", "utf8"), ("testId", testId),
           ("testTitle", testTitle)]).inc 1 t }, []) := by
  simp [onStdOut, hev, hok]

theorem labels_inc_internal (c : Counter) (x chunk testId testTitle : String)
    (t : Nat) (sz : Nat) :
    lookupLabel ((c.labels
      [("internal", x), ("text", chunk), ("size", toString sz),
       ("unit", "bytes"), ("encoding", "utf8"), ("testId", testId),
       ("testTitle", testTitle)]).inc 1 t).series.labels "internal" = some x := by
  rw [inc_series_labels, labels_lookup]
  rfl

theorem labels_inc_length (c : Counter) (E : Labels) (v : Int) (t : Nat) :
    ((c.labels E).inc v t).series.samples.length = c.series.samples.length + 1 := by
  simp [Counter.inc, Counter.labels]

/-! ## Claim theorems -/

/-- Claim C2, counterexample: `labels()` is a plain spread-merge with no
guard, so a caller-supplied `__name__` does overwrite the reserved key
derived from the metric's name ("x" becomes "evil"). -/
theorem c2_counterexample :
    lookupLabel ((Counter.make [("name", "x")] 0 0).series.labels) "__name__" = some "x" ∧
    lookupLabel (((Counter.make [("name", "x")] 0 0).labels
      [("__name__", "evil")]).series.labels) "__name__" = some "evil" :=
  ⟨rfl, rfl⟩

/-- Claim C2 (amended): for every Metric and every label map passed to
`labels()`, the resulting label set retains every previously set label whose
key is not re-supplied, and for re-supplied keys the last written value wins
— uniformly for all keys, including the reserved `__name__` key, which a
caller-supplied map can overwrite (the code has no guard for it). -/
theorem c2_label_merge (c : Counter) (E : Labels) (q : String) :
    ((∀ kv ∈ E, kv.1 ≠ q) →
      lookupLabel ((c.labels E).series.labels) q = lookupLabel c.series.labels q) ∧
    (∀ v, lookupLabelLast E q = some v →
      lookupLabel ((c.labels E).series.labels) q = some v) := by
  constructor
  · exact labels_lookup_of_no_key c E q
  · intro v hv
    rw [labels_lookup, hv]
    rfl

/-- Witness for C2's amended theorem at a concrete metric, label map and
key. -/
theorem c2_label_merge_witness :
    lookupLabel (((Counter.make [("name", "x")] 0 0).labels
      [("a", "1")]).series.labels) "b" =
      lookupLabel (Counter.make [("name", "x")] 0 0).series.labels "b" :=
  (c2_label_merge (Counter.make [("name", "x")] 0 0) [("a", "1")] "b").1
    (allKeysNe _ _ rfl)

/-- Claim C4, counterexample: `Event.is` accepts
`{name: "prometheus-remote-writer", payload: null}` because
`typeof null === "object"` in JS, while the claim requires the payload to be
a non-null object (`eventIsSpec`, written from the claim's words, rejects
it). -/
theorem c4_counterexample :
    eventIs (JSValue.obj [("name", JSValue.str "prometheus-remote-writer"),
      ("payload", JSValue.null)]) = true ∧
    eventIsSpec (JSValue.obj [("name", JSValue.str "prometheus-remote-writer"),
      ("payload", JSValue.null)]) = false :=
  ⟨rfl, rfl⟩

/-- Claim C4 (amended): `Event.is(input)` returns true iff `input` is a
non-null object with keys `name` and `payload`, `name` strictly equal to the
sentinel `"prometheus-remote-writer"`, and `payload` of JS `typeof`
`"object"` — which includes `null` and arrays, not only non-null objects. -/
theorem c4_event_predicate (v : JSValue) :
    eventIs v = true ↔
      ∃ fields, v = JSValue.obj fields ∧
        lookupField fields "name" = some (JSValue.str "prometheus-remote-writer") ∧
        ∃ p, lookupField fields "payload" = some p ∧ jsTypeof p = "object" := by
  cases v with
  | null => simp [eventIs, isJSNull, jsTypeof]
  | bool b => simp [eventIs, isJSNull, jsTypeof, getProp]
  | num n => simp [eventIs, isJSNull, jsTypeof, getProp]
  | str s => simp [eventIs, isJSNull, jsTypeof, getProp]
  | arr l => simp [eventIs, isJSNull, jsTypeof, getProp]
  | obj fields =>
    cases hn : lookupField fields "name" with
    | none => simp [eventIs, isJSNull, jsTypeof, getProp, hn]
    | some nv =>
      cases hp : lookupField fields "payload" with
      | none => cases nv <;> simp [eventIs, isJSNull, jsTypeof, getProp, hn, hp]
      | some pv =>
        cases nv <;>
          simp [eventIs, isJSNull, jsTypeof, getProp, hn, hp, and_assoc]

/-- Witness for C4's amended theorem: the canonical accepted envelope. -/
theorem c4_event_predicate_witness :
    eventIs (JSValue.obj [("name", JSValue.str "prometheus-remote-writer"),
      ("payload", JSValue.obj [])]) = true :=
  (c4_event_predicate _).mpr
    ⟨[("name", JSValue.str "prometheus-remote-writer"),
      ("payload", JSValue.obj [])], rfl, rfl, JSValue.obj [], rfl, rfl⟩

/-- Claim C6: for every Metric constructed with initial value `v0` and every
finite sequence of `inc`/`dec`/`set` calls, the sample sequence length is
1 (the initial sample) plus the number of calls, and the final value is the
left fold of the operations (inc adds, dec subtracts, set replaces) over
`v0` in call order. -/
theorem c6_metric_ops (metadata : Labels) (v0 : Int) (t0 : Nat)
    (ops : List (MOp × Nat)) (c0 : Counter)
    (h : mkCounter metadata v0 t0 = Except.ok c0) :
    (runMOps c0 ops).series.samples.length = 1 + ops.length ∧
    (runMOps c0 ops).counter = ops.foldl (fun x op => evalMOp x op.1) v0 := by
  have hc : c0 = Counter.make metadata v0 t0 := by
    unfold mkCounter at h
    by_cases hcond : (lookupLabel metadata "name").getD "" = ""
    · rw [if_pos hcond] at h
      cases h
    · rw [if_neg hcond] at h
      injection h with h'
      exact h'.symm
  subst hc
  obtain ⟨h1, h2⟩ := runMOps_spec ops (Counter.make metadata v0 t0)
  constructor
  · rw [h1]
    rfl
  · rw [h2]
    rfl

/-- Witness for C6 at a concrete metric (initial value 2) and the concrete
call sequence `inc 3; set 7; dec 2`. -/
theorem c6_metric_ops_witness :
    (runMOps (Counter.make [("name", "m")] 2 0) wOps).series.samples.length =
      1 + wOps.length ∧
    (runMOps (Counter.make [("name", "m")] 2 0) wOps).counter =
      wOps.foldl (fun x op => evalMOp x op.1) 2 :=
  c6_metric_ops [("name", "m")] 2 0 wOps (Counter.make [("name", "m")] 2 0) rfl

/-- Claim C7: `reset()` returns a brand-new Metric built from the original
constructor metadata and initial value (fresh one-sample series), leaves the
instance it was called on untouched, and repeated calls produce equivalent
fresh states (equal up to sample timestamps). -/
theorem c7_reset_fresh (c : Counter) (t t2 : Nat)
    (h : hasValidName c.metadata = true) :
    resetCall c t = (c, Counter.make c.metadata c.initialValue t) ∧
    (c.reset t).series.samples = [{ value := c.initialValue, timestamp := t }] ∧
    (c.reset t).metadata = c.metadata ∧
    (c.reset t).counter = c.initialValue ∧
    sameShape ((c.reset t).reset t2) (c.reset t) := by
  have hcond : ¬ ((lookupLabel c.metadata "name").getD "" = "") := by
    simpa [hasValidName] using h
  have hr : c.reset t = Counter.make c.metadata c.initialValue t := by
    simp [Counter.reset, mkCounter, hcond]
  have hr2 : (c.reset t).reset t2 = Counter.make c.metadata c.initialValue t2 := by
    rw [hr]
    simp [Counter.reset, mkCounter, Counter.make, hcond]
  refine ⟨?_, ?_, ?_, ?_, ?_⟩
  · simp [resetCall, hr]
  · rw [hr]
    rfl
  · rw [hr]
    rfl
  · rw [hr]
    rfl
  · rw [hr2, hr]
    exact ⟨rfl, rfl, rfl, rfl⟩

/-- Witness for C7 at a concrete metric. -/
theorem c7_reset_fresh_witness :
    resetCall (Counter.make [("name", "m")] 5 0) 1 =
      (Counter.make [("name", "m")] 5 0, Counter.make [("name", "m")] 5 1) :=
  (c7_reset_fresh (Counter.make [("name", "m")] 5 0) 1 2 rfl).1

/-- Claim C8: serializing a metric whose stored name is `nm` under prefix
`p` yields `__name__ = p ++ nm`, the metric state is unchanged by flushing
(so arbitrarily many repeated flushes each yield `p ++ nm` — no
double-prefixing), and every label other than `__name__` passes through
unchanged. -/
theorem c8_prefix_once (p : String) (c : Counter) (nm : String) (n : Nat)
    (h : lookupLabel c.series.labels "__name__" = some nm) :
    (iterFlush p c n).1 = c ∧
    (∀ ts ∈ (iterFlush p c n).2,
      lookupLabel ts.labels "__name__" = some (p ++ nm)) ∧
    (∀ q, q ≠ "__name__" →
      lookupLabel (mapTimeseries p c.series).labels q =
        lookupLabel c.series.labels q) := by
  obtain ⟨h1, h2⟩ := iterFlush_spec p c n
  refine ⟨h1, ?_, fun q hq => mapTimeseries_other p c.series q hq⟩
  intro ts hts
  rw [h2] at hts
  have he := List.eq_of_mem_replicate hts
  subst he
  rw [mapTimeseries_name, h]
  rfl

/-- Witness for C8: three flushes of a concrete metric named "x" with
prefix "pw_". -/
theorem c8_prefix_once_witness :
    lookupLabel (mapTimeseries "pw_" (Counter.make [("name", "x")] 0 0).series).labels
      "__name__" = some ("pw_" ++ "x") := by
  have h := (c8_prefix_once "pw_" (Counter.make [("name", "x")] 0 0) "x" 3 rfl).2.1
  exact h _ (by decide)

/-- Claim C5: constructing the Reporter with no `serverUrl` fails
synchronously inside the constructor (before any hook can run), but with the
`URL` constructor's own `TypeError("Invalid URL")` — the package's
descriptive message is unreachable dead code behind `??`. With a valid
`serverUrl`, construction succeeds and the URL is stored. -/
theorem c5_construction :
    mkReporter { serverUrl := none, prefixOpt := none } 0 =
      Except.error "Invalid URL" ∧
    mkReporter { serverUrl := some "http://x/write", prefixOpt := none } 0 =
      Except.ok (initialReporter "http://x/write" "pw_" 0) ∧
    (initialReporter "http://x/write" "pw_" 0).url = "http://x/write" ∧
    (initialReporter "http://x/write" "pw_" 0).prefixStr = "pw_" :=
  ⟨rfl, rfl, rfl, rfl⟩

/-- Claim C1: evaluation of `onTestEnd` (fresh reporter, one annotation, one
10-byte attachment). The slots that are reassigned from `reset()`'s result
(`test`, `test_duration`, `test_retry_count`, `test_step`) are back to a
one-sample fresh state, but `test_annotation_count` and
`test_attachment_size` — whose `reset()` return value the source discards —
still carry two samples and the finished test's labels, contradicting the
claim that every per-test-scoped Metric is reset. -/
theorem c1_per_test_reset_bug :
    (onTestEnd (initialReporter "http://x/write" "pw_" 0) testW resultW
      1).1.test_annotation_count.series.samples.length = 2 ∧
    lookupLabel (onTestEnd (initialReporter "http://x/write" "pw_" 0) testW resultW
      1).1.test_annotation_count.series.labels "type" = some "slow" ∧
    (onTestEnd (initialReporter "http://x/write" "pw_" 0) testW resultW
      1).1.test_attachment_size.series.samples.length = 2 ∧
    lookupLabel (onTestEnd (initialReporter "http://x/write" "pw_" 0) testW resultW
      1).1.test_attachment_size.series.labels "testId" = some "t1" ∧
    (onTestEnd (initialReporter "http://x/write" "pw_" 0) testW resultW
      1).1.test.series.samples.length = 1 ∧
    (onTestEnd (initialReporter "http://x/write" "pw_" 0) testW resultW
      1).1.test_duration.series.samples.length = 1 ∧
    (onTestEnd (initialReporter "http://x/write" "pw_" 0) testW resultW
      1).1.test_retry_count.series.samples.length = 1 ∧
    (onTestEnd (initialReporter "http://x/write" "pw_" 0) testW resultW
      1).1.test_step.series.samples.length = 1 :=
  ⟨rfl, rfl, rfl, rfl, rfl, rfl, rfl, rfl⟩

/-- Claim C9: evaluation of `onStepEnd` (fresh reporter, one error-free
step). The hook does push exactly the three step series
(`test_step_duration`, `test_step_error_count`, `test_step`), but afterwards
the `test_step` slot still carries the step's label set (`testId`,
`status`, ...) because `this.test_step.reset();` discards the fresh instance
— the per-step accumulator is not reset, contradicting the claim. -/
theorem c9_step_reset_bug :
    lookupLabel (onStepEnd (initialReporter "http://x/write" "pw_" 0) testW resultW
      stepW 1).1.test_step.series.labels "testId" = some "t1" ∧
    lookupLabel (onStepEnd (initialReporter "http://x/write" "pw_" 0) testW resultW
      stepW 1).1.test_step.series.labels "status" = some "passed" ∧
    (onStepEnd (initialReporter "http://x/write" "pw_" 0) testW resultW
      stepW 1).2.map (fun ts => lookupLabel ts.labels "__name__") =
      [some "pw_test_step_duration", some "pw_test_step_error_count",
       some "pw_test_step"] :=
  ⟨rfl, rfl, rfl⟩

/-- Claim C3, counterexample: the chunk `"123"` parses as JSON but is not an
Event, so the source reaches neither the `if` body nor the `catch`: the
reporter state is unchanged (the stdout counter still has its single initial
sample, no `internal` label) and nothing is pushed — while the claim
requires one increment with `internal="false"`. -/
theorem c3_counterexample :
    onStdOut (initialReporter "http://x/write" "pw_" 0) "123"
      (some (JSValue.num 123)) "" "" 1 =
      (initialReporter "http://x/write" "pw_" 0, []) ∧
    (onStdOut (initialReporter "http://x/write" "pw_" 0) "123"
      (some (JSValue.num 123)) "" "" 1).1.pw_stdout.series.samples.length = 1 ∧
    lookupLabel (onStdOut (initialReporter "http://x/write" "pw_" 0) "123"
      (some (JSValue.num 123)) "" "" 1).1.pw_stdout.series.labels "internal" = none :=
  ⟨rfl, rfl, rfl⟩

/-- Claim C3 (amended): `onStdOut` dispatches as follows. A chunk that fails
to parse as JSON gets one stdout-counter increment with `internal="false"`
and no push. A chunk that parses but is not a valid Event is ignored
entirely: no increment and no push. A valid Event whose payload's `labels`
destructures pushes the payload once and increments once with
`internal="true"`; a valid Event whose payload makes the relabeling throw
falls into the catch: one increment with `internal="false"`, no push. -/
theorem c3_stdout_dispatch (r : Reporter) (chunk : String)
    (parsed : Option JSValue) (testId testTitle : String) (t : Nat) :
    (parsed = none →
      (onStdOut r chunk parsed testId testTitle t).2 = [] ∧
      (onStdOut r chunk parsed testId testTitle t).1.pw_stdout.series.samples.length =
        r.pw_stdout.series.samples.length + 1 ∧
      lookupLabel (onStdOut r chunk parsed testId testTitle
        t).1.pw_stdout.series.labels "internal" = some "false") ∧
    (∀ v, parsed = some v → eventIs v = false →
      onStdOut r chunk parsed testId testTitle t = (r, [])) ∧
    (∀ v, parsed = some v → eventIs v = true → payloadLabelsOk v = true →
      (onStdOut r chunk parsed testId testTitle t).2 = [getPayload v] ∧
      (onStdOut r chunk parsed testId testTitle t).1.pw_stdout.series.samples.length =
        r.pw_stdout.series.samples.length + 1 ∧
      lookupLabel (onStdOut r chunk parsed testId testTitle
        t).1.pw_stdout.series.labels "internal" = some "true") ∧
    (∀ v, parsed = some v → eventIs v = true → payloadLabelsOk v = false →
      (onStdOut r chunk parsed testId testTitle t).2 = [] ∧
      (onStdOut r chunk parsed testId testTitle t).1.pw_stdout.series.samples.length =
        r.pw_stdout.series.samples.length + 1 ∧
      lookupLabel (onStdOut r chunk parsed testId testTitle
        t).1.pw_stdout.series.labels "internal" = some "false") := by
  refine ⟨?_, ?_, ?_, ?_⟩
  · intro h
    subst h
    rw [onStdOut_parse_fail]
    exact ⟨rfl, labels_inc_length _ _ _ _, labels_inc_internal _ _ _ _ _ _ _⟩
  · intro v h hev
    subst h
    exact onStdOut_non_event r chunk testId testTitle t v hev
  · intro v h hev hok
    subst h
    rw [onStdOut_event r chunk testId testTitle t v hev hok]
    exact ⟨rfl, labels_inc_length _ _ _ _, labels_inc_internal _ _ _ _ _ _ _⟩
  · intro v h hev hok
    subst h
    rw [onStdOut_event_throw r chunk testId testTitle t v hev hok]
    exact ⟨rfl, labels_inc_length _ _ _ _, labels_inc_internal _ _ _ _ _ _ _⟩

/-- Witness for C3's amended theorem: the parse-failure case at a concrete
chunk. -/
theorem c3_stdout_dispatch_witness :
    (onStdOut (initialReporter "http://y/write" "pw_" 0) "plain log line" none
      "" "" 1).2 = [] :=
  ((c3_stdout_dispatch (initialReporter "http://y/write" "pw_" 0)
    "plain log line" none "" "" 1).1 rfl).1

/-! ## Frame lemmas for the `onTestEnd` pipeline (toward C10) -/

theorem updateResults_preserve (r : Reporter) (res : ResultInput) (t : Nat) :
    (updateResults r res t).prefixStr = r.prefixStr ∧
    (updateResults r res t).test_step = r.test_step ∧
    (updateResults r res t).test_step_total_duration = r.test_step_total_duration ∧
    (updateResults r res t).test_attachment_size = r.test_attachment_size ∧
    (updateResults r res t).test_annotation_count = r.test_annotation_count ∧
    (updateResults r res t).test = r.test ∧
    (updateResults r res t).test_duration = r.test_duration ∧
    (updateResults r res t).test_retry_count = r.test_retry_count ∧
    (updateResults r res t).test_step_total_error = r.test_step_total_error ∧
    (updateResults r res t).test_step_total_count = r.test_step_total_count := by
  refine ⟨?_, ?_, ?_, ?_, ?_, ?_, ?_, ?_, ?_, ?_⟩ <;>
    (dsimp only [updateResults]; split <;> split <;> split <;> split <;> rfl)

set_option maxHeartbeats 1600000 in
theorem attachmentStep_preserve (tid ttl : String) (t : Nat) (r : Reporter)
    (a : Attachment) :
    (attachmentStep tid ttl t r a).prefixStr = r.prefixStr ∧
    (attachmentStep tid ttl t r a).test_step = r.test_step ∧
    (attachmentStep tid ttl t r a).test_step_total_duration = r.test_step_total_duration ∧
    (attachmentStep tid ttl t r a).test_annotation_count = r.test_annotation_count ∧
    (attachmentStep tid ttl t r a).test = r.test ∧
    (attachmentStep tid ttl t r a).test_duration = r.test_duration ∧
    (attachmentStep tid ttl t r a).test_retry_count = r.test_retry_count ∧
    (attachmentStep tid ttl t r a).test_step_total_error = r.test_step_total_error ∧
    (attachmentStep tid ttl t r a).test_step_total_count = r.test_step_total_count :=
  ⟨rfl, rfl, rfl, rfl, rfl, rfl, rfl, rfl, rfl⟩

theorem attachmentStep_attach_size_name (tid ttl : String) (t : Nat)
    (r : Reporter) (a : Attachment) :
    slotName (attachmentStep tid ttl t r a).test_attachment_size =
      slotName r.test_attachment_size := by
  have hk : ∀ kv ∈ ([("testId", tid), ("testTitle", ttl), ("unit", "bytes")] : Labels),
      kv.1 ≠ "__name__" := allKeysNe _ _ rfl
  exact slotName_labels_inc _ _ _ _ hk

theorem annotStep_preserve (tid ttl : String) (t : Nat) (r : Reporter)
    (a : Annot) :
    (annotStep tid ttl t r a).prefixStr = r.prefixStr ∧
    (annotStep tid ttl t r a).test_step = r.test_step ∧
    (annotStep tid ttl t r a).test_step_total_duration = r.test_step_total_duration ∧
    (annotStep tid ttl t r a).test_attachment_size = r.test_attachment_size ∧
    (annotStep tid ttl t r a).test = r.test ∧
    (annotStep tid ttl t r a).test_duration = r.test_duration ∧
    (annotStep tid ttl t r a).test_retry_count = r.test_retry_count ∧
    (annotStep tid ttl t r a).test_step_total_error = r.test_step_total_error ∧
    (annotStep tid ttl t r a).test_step_total_count = r.test_step_total_count :=
  ⟨rfl, rfl, rfl, rfl, rfl, rfl, rfl, rfl, rfl⟩

theorem annotStep_count_name (tid ttl : String) (t : Nat) (r : Reporter)
    (a : Annot) :
    slotName (annotStep tid ttl t r a).test_annotation_count =
      slotName r.test_annotation_count := by
  have hk : ∀ kv ∈ ([("type", a.kind), ("description", a.description.getD ""),
      ("testId", tid), ("testTitle", ttl)] : Labels),
      kv.1 ≠ "__name__" := allKeysNe _ _ rfl
  exact slotName_labels_inc _ _ _ _ hk

theorem attachFold_preserve (tid ttl : String) (t : Nat) (l : List Attachment) :
    ∀ r : Reporter,
    (l.foldl (attachmentStep tid ttl t) r).prefixStr = r.prefixStr ∧
    (l.foldl (attachmentStep tid ttl t) r).test_step = r.test_step ∧
    (l.foldl (attachmentStep tid ttl t) r).test_step_total_duration =
      r.test_step_total_duration ∧
    (l.foldl (attachmentStep tid ttl t) r).test_annotation_count =
      r.test_annotation_count ∧
    (l.foldl (attachmentStep tid ttl t) r).test = r.test ∧
    (l.foldl (attachmentStep tid ttl t) r).test_duration = r.test_duration ∧
    (l.foldl (attachmentStep tid ttl t) r).test_retry_count = r.test_retry_count ∧
    (l.foldl (attachmentStep tid ttl t) r).test_step_total_error =
      r.test_step_total_error ∧
    (l.foldl (attachmentStep tid ttl t) r).test_step_total_count =
      r.test_step_total_count ∧
    slotName (l.foldl (attachmentStep tid ttl t) r).test_attachment_size =
      slotName r.test_attachment_size := by
  induction l with
  | nil =>
    intro r
    exact ⟨rfl, rfl, rfl, rfl, rfl, rfl, rfl, rfl, rfl, rfl⟩
  | cons a rest ih =>
    intro r
    rw [List.foldl_cons]
    obtain ⟨p0, p1, p2, p3, p4, p5, p6, p7, p8, p9⟩ := ih (attachmentStep tid ttl t r a)
    obtain ⟨q0, q1, q2, q3, q4, q5, q6, q7, q8⟩ := attachmentStep_preserve tid ttl t r a
    exact ⟨p0.trans q0, p1.trans q1, p2.trans q2, p3.trans q3, p4.trans q4,
           p5.trans q5, p6.trans q6, p7.trans q7, p8.trans q8,
           p9.trans (attachmentStep_attach_size_name tid ttl t r a)⟩

theorem annotFold_preserve (tid ttl : String) (t : Nat) (l : List Annot) :
    ∀ r : Reporter,
    (l.foldl (annotStep tid ttl t) r).prefixStr = r.prefixStr ∧
    (l.foldl (annotStep tid ttl t) r).test_step = r.test_step ∧
    (l.foldl (annotStep tid ttl t) r).test_step_total_duration =
      r.test_step_total_duration ∧
    (l.foldl (annotStep tid ttl t) r).test_attachment_size =
      r.test_attachment_size ∧
    (l.foldl (annotStep tid ttl t) r).test = r.test ∧
    (l.foldl (annotStep tid ttl t) r).test_duration = r.test_duration ∧
    (l.foldl (annotStep tid ttl t) r).test_retry_count = r.test_retry_count ∧
    (l.foldl (annotStep tid ttl t) r).test_step_total_error =
      r.test_step_total_error ∧
    (l.foldl (annotStep tid ttl t) r).test_step_total_count =
      r.test_step_total_count ∧
    slotName (l.foldl (annotStep tid ttl t) r).test_annotation_count =
      slotName r.test_annotation_count := by
  induction l with
  | nil =>
    intro r
    exact ⟨rfl, rfl, rfl, rfl, rfl, rfl, rfl, rfl, rfl, rfl⟩
  | cons a rest ih =>
    intro r
    rw [List.foldl_cons]
    obtain ⟨p0, p1, p2, p3, p4, p5, p6, p7, p8, p9⟩ := ih (annotStep tid ttl t r a)
    obtain ⟨q0, q1, q2, q3, q4, q5, q6, q7, q8⟩ := annotStep_preserve tid ttl t r a
    exact ⟨p0.trans q0, p1.trans q1, p2.trans q2, p3.trans q3, p4.trans q4,
           p5.trans q5, p6.trans q6, p7.trans q7, p8.trans q8,
           p9.trans (annotStep_count_name tid ttl t r a)⟩

theorem onTestEndTail_names (r3 : Reporter) (test : TestInput)
    (result : ResultInput) (t : Nat)
    (h1 : slotName r3.test_step = some "test_step")
    (h2 : slotName r3.test_step_total_duration = some "test_step_total_duration")
    (h3 : slotName r3.test_attachment_size = some "test_attachment_size")
    (h4 : slotName r3.test_annotation_count = some "test_annotation_count")
    (h5 : slotName r3.test = some "test")
    (h6 : slotName r3.test_duration = some "test_duration")
    (h7 : slotName r3.test_retry_count = some "test_retry_count")
    (h8 : slotName r3.test_step_total_error = some "test_step_total_error")
    (h9 : slotName r3.test_step_total_count = some "test_step_total_count") :
    (onTestEndTail r3 test result t).2.map
      (fun ts => lookupLabel ts.labels "__name__") =
      onTestEndBatchNames.map (fun s => some (r3.prefixStr ++ s)) := by
  have hkE : ∀ kv ∈ testEndLabels test result, kv.1 ≠ "__name__" :=
    allKeysNe (testEndLabels test result) "__name__" rfl
  have e5 : slotName ((r3.test.labels (testEndLabels test result)).inc 1 t) =
      some "test" := by
    rw [slotName_labels_inc _ _ _ _ hkE]
    exact h5
  have e6 : slotName ((r3.test_duration.labels
      (testEndLabels test result)).set result.duration t) = some "test_duration" := by
    rw [slotName_labels_set _ _ _ _ hkE]
    exact h6
  have e7 : slotName ((r3.test_retry_count.labels
      (testEndLabels test result)).inc (result.retry : Int) t) =
      some "test_retry_count" := by
    rw [slotName_labels_inc _ _ _ _ hkE]
    exact h7
  simp only [slotName] at h1 h2 h3 h4 h8 h9 e5 e6 e7
  dsimp only [onTestEndTail]
  simp only [List.map_cons, List.map_nil, mapTimeseries_name]
  rw [h1, h2, h3, h4, e5, e6, e7, h8, h9]
  simp only [Option.getD_some, onTestEndBatchNames, List.map_cons, List.map_nil]

theorem count_map_inj (l : List String) (f : String → Option String)
    (hf : Function.Injective f) (x : String) :
    (l.map f).count (f x) = l.count x := by
  induction l with
  | nil => rfl
  | cons a rest ih =>
    simp [List.count_cons, ih, hf.eq_iff]

theorem str_append_left_cancel {p a b : String} (h : p ++ a = p ++ b) : a = b := by
  obtain ⟨la⟩ := a
  obtain ⟨lb⟩ := b
  obtain ⟨lp⟩ := p
  have h' : lp ++ la = lp ++ lb := congrArg String.data h
  exact congrArg String.mk (List.append_cancel_left h')

/-- Claim C10: for every invocation of `onTestEnd` (on a state whose slots
carry their canonical metric names), the batch handed to the push client
lists `test_attachment_size` twice, and every other series in the batch
exactly once. -/
theorem c10_batch (r : Reporter) (test : TestInput) (result : ResultInput)
    (t : Nat)
    (h1 : slotName r.test_step = some "test_step")
    (h2 : slotName r.test_step_total_duration = some "test_step_total_duration")
    (h3 : slotName r.test_attachment_size = some "test_attachment_size")
    (h4 : slotName r.test_annotation_count = some "test_annotation_count")
    (h5 : slotName r.test = some "test")
    (h6 : slotName r.test_duration = some "test_duration")
    (h7 : slotName r.test_retry_count = some "test_retry_count")
    (h8 : slotName r.test_step_total_error = some "test_step_total_error")
    (h9 : slotName r.test_step_total_count = some "test_step_total_count") :
    ((onTestEnd r test result t).2.map
        (fun ts => lookupLabel ts.labels "__name__") =
      onTestEndBatchNames.map (fun s => some (r.prefixStr ++ s))) ∧
    ((onTestEnd r test result t).2.map
        (fun ts => lookupLabel ts.labels "__name__")).count
      (some (r.prefixStr ++ "test_attachment_size")) = 2 ∧
    (∀ x ∈ (onTestEnd r test result t).2.map
        (fun ts => lookupLabel ts.labels "__name__"),
      x ≠ some (r.prefixStr ++ "test_attachment_size") →
      ((onTestEnd r test result t).2.map
        (fun ts => lookupLabel ts.labels "__name__")).count x = 1) := by
  obtain ⟨a0, a1, a2, a3, a4, a5, a6, a7, a8, a9⟩ := updateResults_preserve r result t
  obtain ⟨b0, b1, b2, b3, b4, b5, b6, b7, b8, bn⟩ :=
    attachFold_preserve test.id test.title t result.attachments
      (updateResults r result t)
  obtain ⟨c0, c1, c2, c3, c4, c5, c6, c7, c8, cn⟩ :=
    annotFold_preserve test.id test.title t test.annotations
      (result.attachments.foldl (attachmentStep test.id test.title t)
        (updateResults r result t))
  have n1 : slotName (test.annotations.foldl (annotStep test.id test.title t)
      (result.attachments.foldl (attachmentStep test.id test.title t)
        (updateResults r result t))).test_step = some "test_step" := by
    rw [c1, b1, a1]
    exact h1
  have n2 : slotName (test.annotations.foldl (annotStep test.id test.title t)
      (result.attachments.foldl (attachmentStep test.id test.title t)
        (updateResults r result t))).test_step_total_duration =
      some "test_step_total_duration" := by
    rw [c2, b2, a2]
    exact h2
  have n3 : slotName (test.annotations.foldl (annotStep test.id test.title t)
      (result.attachments.foldl (attachmentStep test.id test.title t)
        (updateResults r result t))).test_attachment_size =
      some "test_attachment_size" := by
    rw [c3, bn, a3]
    exact h3
  have n4 : slotName (test.annotations.foldl (annotStep test.id test.title t)
      (result.attachments.foldl (attachmentStep test.id test.title t)
        (updateResults r result t))).test_annotation_count =
      some "test_annotation_count" := by
    rw [cn, b3, a4]
    exact h4
  have n5 : slotName (test.annotations.foldl (annotStep test.id test.title t)
      (result.attachments.foldl (attachmentStep test.id test.title t)
        (updateResults r result t))).test = some "test" := by
    rw [c4, b4, a5]
    exact h5
  have n6 : slotName (test.annotations.foldl (annotStep test.id test.title t)
      (result.attachments.foldl (attachmentStep test.id test.title t)
        (updateResults r result t))).test_duration = some "test_duration" := by
    rw [c5, b5, a6]
    exact h6
  have n7 : slotName (test.annotations.foldl (annotStep test.id test.title t)
      (result.attachments.foldl (attachmentStep test.id test.title t)
        (updateResults r result t))).test_retry_count =
      some "test_retry_count" := by
    rw [c6, b6, a7]
    exact h7
  have n8 : slotName (test.annotations.foldl (annotStep test.id test.title t)
      (result.attachments.foldl (attachmentStep test.id test.title t)
        (updateResults r result t))).test_step_total_error =
      some "test_step_total_error" := by
    rw [c7, b7, a8]
    exact h8
  have n9 : slotName (test.annotations.foldl (annotStep test.id test.title t)
      (result.attachments.foldl (attachmentStep test.id test.title t)
        (updateResults r result t))).test_step_total_count =
      some "test_step_total_count" := by
    rw [c8, b8, a9]
    exact h9
  have hp : (test.annotations.foldl (annotStep test.id test.title t)
      (result.attachments.foldl (attachmentStep test.id test.title t)
        (updateResults r result t))).prefixStr = r.prefixStr := by
    rw [c0, b0, a0]
  have hnames := onTestEndTail_names
    (test.annotations.foldl (annotStep test.id test.title t)
      (result.attachments.foldl (attachmentStep test.id test.title t)
        (updateResults r result t))) test result t n1 n2 n3 n4 n5 n6 n7 n8 n9
  rw [hp] at hnames
  have hbatch : (onTestEnd r test result t).2 =
      (onTestEndTail (test.annotations.foldl (annotStep test.id test.title t)
        (result.attachments.foldl (attachmentStep test.id test.title t)
          (updateResults r result t))) test result t).2 := rfl
  have hmap : (onTestEnd r test result t).2.map
      (fun ts => lookupLabel ts.labels "__name__") =
      onTestEndBatchNames.map (fun s => some (r.prefixStr ++ s)) := by
    rw [hbatch]
    exact hnames
  have hinj : Function.Injective
      (fun s : String => (some (r.prefixStr ++ s) : Option String)) := by
    intro x y hxy
    exact str_append_left_cancel (Option.some.inj hxy)
  refine ⟨hmap, ?_, ?_⟩
  · rw [hmap]
    have hc : (onTestEndBatchNames.map
        (fun s => (some (r.prefixStr ++ s) : Option String))).count
        (some (r.prefixStr ++ "test_attachment_size")) =
        onTestEndBatchNames.count "test_attachment_size" :=
      count_map_inj onTestEndBatchNames _ hinj _
    rw [hc]
    decide
  · intro x hx hxne
    rw [hmap] at hx
    obtain ⟨s, hs, rfl⟩ := List.mem_map.mp hx
    have hc : (onTestEndBatchNames.map
        (fun s2 => (some (r.prefixStr ++ s2) : Option String))).count
        (some (r.prefixStr ++ s)) = onTestEndBatchNames.count s :=
      count_map_inj onTestEndBatchNames _ hinj _
    rw [hmap, hc]
    have hsne : s ≠ "test_attachment_size" := by
      intro he
      exact hxne (by rw [he])
    have hone : ∀ s2 ∈ onTestEndBatchNames, s2 ≠ "test_attachment_size" →
        onTestEndBatchNames.count s2 = 1 := by decide
    exact hone s hs hsne

/-- Witness for C10 at the initial reporter state and a concrete test. -/
theorem c10_batch_witness :
    ((onTestEnd (initialReporter "http://x/write" "pw_" 0) testW resultW 1).2.map
        (fun ts => lookupLabel ts.labels "__name__")).count
      (some ((initialReporter "http://x/write" "pw_" 0).prefixStr ++
        "test_attachment_size")) = 2 :=
  (c10_batch (initialReporter "http://x/write" "pw_" 0) testW resultW 1
    rfl rfl rfl rfl rfl rfl rfl rfl rfl).2.1

end PwRW
